import Mathlib

/-!
Verification of the i3expo workspace state-synchronization core.

Shallow embedding of the Python sources:
  - `updater.py` : the `lockable` single-flight decorator;
  - `workspace.py` : the `Workspaces` registry, `DummyWorkspace` and
    `Workspace` record state machine (`capture`, `set_state`,
    `screenshot_older_than`, `update`);
  - `tile.py` : the `CapturedTile` render cache (`set_colors`,
    `set_screenshot`, `update`) and `EmptyTile`;
  - `config.py` : the configured palette table and workspace count.

Machine floats (`time.time()` values, the configured intervals) are
modelled as rationals; raw pixel buffers as explicit byte lists; pygame
surface objects by a generation counter (a fresh surface gets a fresh
generation, so "same generation" means "same object").
-/

namespace I3expo

/-! ### `updater.lockable` (updater.py lines 29-39)

The decorator keeps one closure boolean `wrapper.locked`, initially
`False`.  A call first checks the flag: if set, it returns at once
without calling `f`; otherwise it sets the flag, calls `f`, and clears
the flag only after `f` returns normally (an exception propagates past
the clearing assignment, leaving the flag set).

We embed the wrapper as a two-phase state machine: `lockEnter` models
the check-then-set prefix together with entering the body `f`, and
`lockExit` models `f` finishing, either normally (`BodyOutcome.ok`,
line 34 runs and clears the flag) or by raising (`BodyOutcome.err`,
line 34 is skipped).  `inBody` records whether `f` is currently
executing. -/

inductive BodyOutcome
  | ok
  | err
deriving DecidableEq, Repr

structure LockSt where
  locked : Bool
  inBody : Bool
deriving DecidableEq, Repr

/-- Initial wrapper state: `wrapper.locked = False`, no body running. -/
def lockInit : LockSt := { locked := false, inBody := false }

/-- A call arrives: `if not wrapper.locked: wrapper.locked = True; f(...)`.
Returns the new state and whether the body was entered. -/
def lockEnter (s : LockSt) : LockSt × Bool :=
  if s.locked then (s, false)
  else ({ locked := true, inBody := true }, true)

/-- The running body finishes.  On a normal return the wrapper executes
`wrapper.locked = False`; on an exception that assignment is skipped and
the flag stays `True`. -/
def lockExit (s : LockSt) (o : BodyOutcome) : LockSt :=
  if s.inBody then
    match o with
    | BodyOutcome.ok => { locked := false, inBody := false }
    | BodyOutcome.err => { locked := true, inBody := false }
  else s

/-- Interleaved events hitting the wrapper: a call arriving, or the
currently running body finishing with the given outcome. -/
inductive LockEv
  | arrive
  | finish (o : BodyOutcome)
deriving DecidableEq, Repr

/-- One event step; the `Nat` is 1 when this event entered the body. -/
def lockStep (s : LockSt) : LockEv → LockSt × Nat
  | LockEv.arrive =>
      let (s', entered) := lockEnter s
      (s', if entered then 1 else 0)
  | LockEv.finish o => (lockExit s o, 0)

/-- Run a sequence of events; the `Nat` counts how many calls entered
(executed) the wrapped body. -/
def lockRun (s : LockSt) : List LockEv → LockSt × Nat
  | [] => (s, 0)
  | e :: es =>
      let (s1, n) := lockStep s e
      let (s2, m) := lockRun s1 es
      (s2, n + m)

/-! ### Geometry fingerprints (workspace.py lines 133-146)

`Workspace.set_state` folds the window-manager tree's leaf windows of
this workspace into a tuple of `(cont.id, cont.rect.x, cont.rect.y,
cont.rect.width, cont.rect.height)` 5-tuples.  A leaf as delivered by
the window manager also carries a `focused` flag (i3ipc `Con.focused`),
which `set_state` does not read. -/

structure Leaf where
  id : Nat
  x : Int
  y : Int
  width : Nat
  height : Nat
  focused : Bool
deriving DecidableEq, Repr

/-- One entry of the stored state tuple. -/
abbrev FpEntry := Nat × Int × Int × Nat × Nat

/-- The fingerprint `set_state` computes from the leaf list. -/
def fingerprintOf (leaves : List Leaf) : List FpEntry :=
  leaves.map (fun c => (c.id, c.x, c.y, c.width, c.height))

/-! ### Workspace records (workspace.py lines 75-166) -/

/-- A raw capture result `(width, height, result)` as produced by
`GRAB.getScreen`. -/
structure Screenshot where
  width : Nat
  height : Nat
  data : List Nat
deriving DecidableEq, Repr

/-- The two configured intervals read by `Workspace.update` /
`screenshot_older_than` (config.py `Capture` section). -/
structure Conf where
  minUpdateIntervalSec : ℚ
  forcedUpdateIntervalSec : ℚ
deriving DecidableEq, Repr

/-- The tile attached to a real `Workspace` record is an `UnknownTile`
until the first accepted capture and a `CapturedTile` afterwards
(workspace.py lines 93 and 159-164). -/
inductive TileKind
  | unknown
  | captured
deriving DecidableEq, Repr

/-- A real `Workspace` record: index, stored fingerprint tuple, the
`screenshot` field, the `last` dict entries and the tile kind. -/
structure WorkspaceRec where
  index : Int
  state : List FpEntry
  screenshot : Option Screenshot
  lastState : Option ℚ
  lastScreenshot : Option ℚ
  lastAny : Option ℚ
  tile : TileKind
deriving DecidableEq, Repr

/-- A freshly initialized `Workspace` (workspace.py lines 76-95):
empty state tuple, no screenshot, all `last` entries `None`, tile
`UnknownTile`. -/
def freshWorkspace (n : Int) : WorkspaceRec :=
  { index := n, state := [], screenshot := none,
    lastState := none, lastScreenshot := none, lastAny := none,
    tile := TileKind.unknown }

/-- Embedding of `Workspace.capture` (workspace.py lines 108-125) after the external
`GRAB.getScreen` call has produced `buf`.  `activeAtResult` is the value
of `self.workspaces.active_workspace` at the moment the result is
checked (line 119); `now` is `time.time()` inside `set_last`.  Returns
the updated record and the method's boolean result. -/
def capture (w : WorkspaceRec) (activeAtResult : Option Int)
    (buf : Screenshot) (now : ℚ) : WorkspaceRec × Bool :=
  if activeAtResult = some w.index then
    ({ w with screenshot := some buf,
              lastScreenshot := some now, lastAny := some now }, true)
  else
    (w, false)

/-- Embedding of `Workspace.screenshot_older_than` (workspace.py lines 127-131):
`self.screenshot is None or time.time() - self.last['screenshot'] > what`.
The `some/none` branch is unreachable in the program (the two fields are
always set together by `capture`). -/
def screenshotOlderThan (w : WorkspaceRec) (now what : ℚ) : Bool :=
  match w.screenshot, w.lastScreenshot with
  | none, _ => true
  | some _, some t => decide (now - t > what)
  | some _, none => true

/-- Embedding of `Workspace.set_state` (workspace.py lines 133-146): recompute the
fingerprint from the current leaves, compare, store, and stamp
`last['state']`/`last['any']` on change.  Returns the updated record
and `changed`. -/
def setState (w : WorkspaceRec) (leaves : List Leaf) (now : ℚ) :
    WorkspaceRec × Bool :=
  let st := fingerprintOf leaves
  let changed := w.state ≠ st
  if changed then
    ({ w with state := st, lastState := some now, lastAny := some now }, true)
  else
    ({ w with state := st }, false)

/-- Instrumented result of one `Workspace.update` pass. -/
structure UpdateResult where
  record : WorkspaceRec
  ran : Bool
  captureInvoked : Bool
  captureAccepted : Bool
deriving DecidableEq, Repr

/-- Embedding of `Workspace.update` (workspace.py lines 148-166).  `leaves` is the
window manager's current leaf list for this index; `active` is
`self.workspaces.active_workspace` as read by the eligibility test on
line 157; `activeAtResult` is its value when `capture` checks it on
line 119 (another thread may have changed it during the grab); `buf` is
the grabbed buffer; `now` is the pass's clock reading. -/
def wsUpdate (w : WorkspaceRec) (conf : Conf) (leaves : List Leaf)
    (active activeAtResult : Option Int) (buf : Screenshot) (now : ℚ) :
    UpdateResult :=
  let debounced :=
    match w.lastState with
    | some t => decide (now - t < conf.minUpdateIntervalSec)
    | none => false
  if debounced then
    { record := w, ran := false, captureInvoked := false, captureAccepted := false }
  else
    let (w1, stateChanged) := setState w leaves now
    if active = some w1.index ∧
        (stateChanged ∨ screenshotOlderThan w1 now conf.forcedUpdateIntervalSec) then
      match w1.tile with
      | TileKind.unknown =>
          let (w2, accepted) := capture w1 activeAtResult buf now
          if accepted then
            { record := { w2 with tile := TileKind.captured }, ran := true,
              captureInvoked := true, captureAccepted := true }
          else
            { record := w2, ran := true, captureInvoked := true, captureAccepted := false }
      | TileKind.captured =>
          let (w2, accepted) := capture w1 activeAtResult buf now
          { record := w2, ran := true, captureInvoked := true, captureAccepted := accepted }
    else
      { record := w1, ran := true, captureInvoked := false, captureAccepted := false }

/-- The environment one coordinator pass presents to a record. -/
structure PassInput where
  conf : Conf
  leaves : List Leaf
  active : Option Int
  activeAtResult : Option Int
  buf : Screenshot
  now : ℚ
deriving DecidableEq, Repr

/-- One pass, keeping only the record. -/
def runPass (w : WorkspaceRec) (p : PassInput) : WorkspaceRec :=
  (wsUpdate w p.conf p.leaves p.active p.activeAtResult p.buf p.now).record

/-- A sequence of passes. -/
def runPasses (w : WorkspaceRec) (ps : List PassInput) : WorkspaceRec :=
  ps.foldl runPass w

/-! ### Palettes (config.py lines 141-146, tile.py)

`config.py` builds `CONF.colors` with exactly the keys `active`,
`inactive`, `unknown` and `empty`.  The legacy monolith (`i3expod.py`
`get_tile_data`) additionally distinguishes a "nonexistant" palette for
indices beyond the configured workspace count; that palette has no key
in `config.py`'s table and is never referenced by `tile.py`.  We keep a
tag for it so that statements about it can be made. -/

inductive Palette
  | active
  | inactive
  | unknown
  | empty
  | nonexistent
deriving DecidableEq, Repr

/-- The `UI.workspaces` default (config.py line 29). -/
def confWorkspaceCount : Int := 9

/-- Embedding of `EmptyTile.initialize` (tile.py lines 170-174): it sets
`self.color = CONF.colors['empty']`, with no branch on the workspace
index. -/
def emptyTilePalette (_dummyIndex : Int) : Palette := Palette.empty

/-- A `DummyWorkspace` (workspace.py lines 60-73): index, empty `last`
dict and state tuple, and an `EmptyTile` whose selected palette we
record. -/
structure DummyRec where
  index : Int
  palette : Palette
deriving DecidableEq, Repr

/-- Embedding of `DummyWorkspace.__init__`: the attached `EmptyTile(self)` runs
`EmptyTile.initialize` on construction. -/
def mkDummy (n : Int) : DummyRec :=
  { index := n, palette := emptyTilePalette n }

/-! ### The `Workspaces` registry (workspace.py lines 22-58)

`Workspaces` subclasses `dict`; we model the dict contents as an
insertion-ordered association list with integer keys, plus the
`active_workspace` attribute. -/

/-- A stored registry entry: a placeholder or a real record. -/
inductive WEntry
  | dummyRec (d : DummyRec)
  | realRec (r : WorkspaceRec)
deriving DecidableEq, Repr

structure Workspaces where
  store : List (Int × WEntry)
  active : Option Int
deriving DecidableEq, Repr

/-- Dict key lookup. -/
def storeLookup (l : List (Int × WEntry)) (k : Int) : Option WEntry :=
  match l with
  | [] => none
  | (k', e) :: rest => if k' = k then some e else storeLookup rest k

/-- Dict key-set membership and item assignment (`self[key] = value`). -/
def storeInsert (l : List (Int × WEntry)) (k : Int) (e : WEntry) :
    List (Int × WEntry) :=
  match l with
  | [] => [(k, e)]
  | (k', e') :: rest =>
      if k' = k then (k, e) :: rest else (k', e') :: storeInsert rest k e

/-- The body of `Workspaces.__init__` (workspace.py lines 23-24): it
assigns `self.active_workspace = None` and nothing else — in particular
it does not touch the inherited dict's items. -/
def workspacesInitBody (w : Workspaces) : Workspaces :=
  { w with active := none }

/-- Construction `Workspaces()`: a fresh (empty) dict, then
`__init__`. -/
def workspacesNew : Workspaces :=
  workspacesInitBody { store := [], active := none }

/-- Embedding of `Workspaces.reset` (workspace.py lines 56-58): `self.__init__()`. -/
def wsReset (w : Workspaces) : Workspaces :=
  workspacesInitBody w

/-- Embedding of `Workspaces.set_active` (workspace.py lines 52-54). -/
def wsSetActive (w : Workspaces) (n : Int) : Workspaces :=
  { w with active := some n }

/-- A Python value used as a subscript key: an `int`, or anything
else (modelled by a string witness), for the `isinstance(key, int)`
test. -/
inductive PyKey
  | int (n : Int)
  | nonInt (s : String)
deriving DecidableEq, Repr

/-- Embedding of `Workspaces.__getitem__` (workspace.py lines 26-34):
raise `KeyError` when the key is not an `int` or is `< 0`; return the
stored record when present; otherwise store and return a fresh
`DummyWorkspace(key)`. -/
def getItem (w : Workspaces) (k : PyKey) :
    Except String (Workspaces × WEntry) :=
  match k with
  | PyKey.nonInt _ => Except.error "Invalid key"
  | PyKey.int n =>
      if n < 0 then Except.error "Invalid key"
      else
        match storeLookup w.store n with
        | some e => Except.ok (w, e)
        | none =>
            let d := WEntry.dummyRec (mkDummy n)
            Except.ok ({ w with store := storeInsert w.store n d }, d)

/-! ### The `CapturedTile` render cache (tile.py lines 112-158)

The tile keeps `self.color` (a frame/tile colour pair, `None`s before
first assignment), its own processed `self.screenshot`, its own `last`
dict, and the two cached surfaces `surface['mouseoff']` /
`surface['mouseon']`.  `set_surface` always builds fresh surface
objects; we model object identity by a generation counter that
`set_surface` bumps: the surface pair is the same pair of objects
exactly when the generation is unchanged. -/

/-- A concrete frame/tile colour pair, e.g. `CONF.colors['active']`. -/
structure ColorPair where
  frame : Nat
  tile : Nat
deriving DecidableEq, Repr

/-- The palette entries `set_colors` can pick (config.py lines 141-146). -/
structure TileConf where
  activeColors : ColorPair
  inactiveColors : ColorPair
deriving DecidableEq, Repr

structure TileState where
  color : Option ColorPair
  screenshot : Option Screenshot
  lastState : Option ℚ
  lastScreenshot : Option ℚ
  lastAny : Option ℚ
  surfaceGen : Nat
deriving DecidableEq, Repr

/-- Embedding of `CapturedTile.set_colors` (tile.py lines 125-138): when the owning
workspace's state tuple is non-empty, pick the active or inactive pair
by comparing the registry's `active_workspace` with the workspace
index; report (and timestamp) whether the stored colour changed. -/
def setColors (tl : TileState) (tconf : TileConf) (wsState : List FpEntry)
    (wsActive : Option Int) (wsIndex : Int) (now : ℚ) : TileState × Bool :=
  let newColor :=
    if wsState ≠ [] then
      if wsActive = some wsIndex then some tconf.activeColors
      else some tconf.inactiveColors
    else tl.color
  if tl.color ≠ newColor then
    ({ tl with color := newColor, lastState := some now, lastAny := some now },
     true)
  else
    ({ tl with color := newColor }, false)

/-- Embedding of `CapturedTile.set_screenshot` (tile.py lines 140-148): reprocess the
workspace's raw buffer only when the workspace has a capture timestamp
and the tile has none yet or an older one. -/
def setScreenshot (tl : TileState) (ws : WorkspaceRec) (now : ℚ) :
    TileState × Bool :=
  match ws.lastScreenshot with
  | none => (tl, false)
  | some wt =>
      match tl.lastScreenshot with
      | none =>
          ({ tl with screenshot := ws.screenshot,
                     lastScreenshot := some now, lastAny := some now }, true)
      | some t =>
          if t < wt then
            ({ tl with screenshot := ws.screenshot,
                       lastScreenshot := some now, lastAny := some now }, true)
          else (tl, false)

/-- Embedding of `CapturedTile.update` (tile.py lines 150-158): run both checks; only
when at least one reported a change call `set_surface`, which builds a
fresh `mouseoff`/`mouseon` surface pair. -/
def tileUpdate (tl : TileState) (tconf : TileConf) (ws : WorkspaceRec)
    (wsActive : Option Int) (now : ℚ) : TileState :=
  let (tl1, colorsChanged) := setColors tl tconf ws.state wsActive ws.index now
  let (tl2, screenshotChanged) := setScreenshot tl1 ws now
  if colorsChanged || screenshotChanged then
    { tl2 with surfaceGen := tl2.surfaceGen + 1 }
  else tl2

/-! ### Helper lemmas -/

lemma setState_index (w : WorkspaceRec) (leaves : List Leaf) (now : ℚ) :
    (setState w leaves now).1.index = w.index := by
  unfold setState; dsimp only; split <;> rfl

lemma setState_screenshot (w : WorkspaceRec) (leaves : List Leaf) (now : ℚ) :
    (setState w leaves now).1.screenshot = w.screenshot := by
  unfold setState; dsimp only; split <;> rfl

lemma setState_lastScreenshot (w : WorkspaceRec) (leaves : List Leaf) (now : ℚ) :
    (setState w leaves now).1.lastScreenshot = w.lastScreenshot := by
  unfold setState; dsimp only; split <;> rfl

lemma setState_tile (w : WorkspaceRec) (leaves : List Leaf) (now : ℚ) :
    (setState w leaves now).1.tile = w.tile := by
  unfold setState; dsimp only; split <;> rfl

lemma setState_changed (w : WorkspaceRec) (leaves : List Leaf) (now : ℚ) :
    (setState w leaves now).2 = true ↔ w.state ≠ fingerprintOf leaves := by
  unfold setState; dsimp only; split
  · simp_all
  · simp_all

lemma capture_tile (w : WorkspaceRec) (act : Option Int) (buf : Screenshot)
    (now : ℚ) : (capture w act buf now).1.tile = w.tile := by
  unfold capture; split <;> rfl

/-- Tile-kind preservation of one full pass for an already-captured
record. -/
lemma runPass_captured (w : WorkspaceRec) (p : PassInput)
    (h : w.tile = TileKind.captured) :
    (runPass w p).tile = TileKind.captured := by
  unfold runPass wsUpdate
  dsimp only
  split
  · exact h
  · have ht : (setState w p.leaves p.now).1.tile = TileKind.captured := by
      rw [setState_tile]; exact h
    split
    · rw [ht]
      dsimp only
      exact (capture_tile _ _ _ _).trans ht
    · exact ht

/-! ### Claim theorems -/

/-- C1: race guard at capture acceptance.  If, when the capture result
is available, the registry's `active_workspace` no longer equals the
record's index, `Workspace.capture` leaves the record unchanged (in
particular its `screenshot` and `last['screenshot']` fields) and
returns `False`; when it still matches, the buffer is written, the
capture timestamp is updated, and the method returns `True`. -/
theorem capture_race_guard (w : WorkspaceRec) (act : Option Int)
    (buf : Screenshot) (now : ℚ) :
    (act ≠ some w.index → capture w act buf now = (w, false)) ∧
    (act = some w.index →
      capture w act buf now =
        ({ w with screenshot := some buf, lastScreenshot := some now,
                  lastAny := some now }, true)) := by
  constructor
  · intro h; simp [capture, h]
  · intro h; simp [capture, h]

/-- Witness for C1: concrete stale capture (index 3, active index 4)
discards the buffer and leaves the record untouched. -/
theorem capture_race_guard_witness :
    capture (freshWorkspace 3) (some 4) ⟨1, 1, [0]⟩ 5 =
      (freshWorkspace 3, false) :=
  (capture_race_guard (freshWorkspace 3) (some 4) ⟨1, 1, [0]⟩ 5).1 (by decide)

/-- A concrete captured record used to exhibit the `reset` bug. -/
def c2record : WorkspaceRec :=
  { index := 1, state := [(5, 0, 0, 100, 100)],
    screenshot := some ⟨2, 2, [7]⟩, lastState := some 1,
    lastScreenshot := some 1, lastAny := some 1,
    tile := TileKind.captured }

/-- C2: the claim (and the spec, and the method's own log line
"Resetting all workspace data") say `reset()` clears all records, but
`Workspaces.reset` only runs `self.__init__()`, whose body assigns
`self.active_workspace = None` and never clears the inherited dict's
items.  On a registry holding a captured record at index 1, `reset()`
clears the active index but keeps the record, and a subsequent lookup
returns the pre-reset record rather than a fresh dummy. -/
theorem reset_keeps_store :
    wsReset { store := [(1, WEntry.realRec c2record)], active := some 1 } =
      { store := [(1, WEntry.realRec c2record)], active := none } ∧
    getItem
        (wsReset { store := [(1, WEntry.realRec c2record)], active := some 1 })
        (PyKey.int 1) =
      Except.ok ({ store := [(1, WEntry.realRec c2record)], active := none },
                 WEntry.realRec c2record) := by
  exact ⟨rfl, rfl⟩

/-- C6: single-flight.  A call arriving while the wrapper's flag is set
(which is the case whenever the wrapped body is executing, since
`lockable` sets the flag before calling `f`) changes nothing and runs
no body; and from the idle state, two overlapping calls — the second
arriving while the first's body runs — execute the body exactly once. -/
theorem single_flight (s : LockSt) (h : s.locked = true) :
    lockStep s LockEv.arrive = (s, 0) ∧
    (lockRun lockInit
        [LockEv.arrive, LockEv.arrive, LockEv.finish BodyOutcome.ok]).2 = 1 := by
  refine ⟨?_, by decide⟩
  simp [lockStep, lockEnter, h]

/-- Witness for C6 at the state in which a body is executing. -/
theorem single_flight_witness :
    lockStep { locked := true, inBody := true } LockEv.arrive =
      ({ locked := true, inBody := true }, 0) :=
  (single_flight { locked := true, inBody := true } rfl).1

/-- C10: the single-flight guard does not release on failure.  If the
wrapped body raises, `wrapper.locked = False` (updater.py line 34) is
skipped, so the flag stays `True`; from that state every further event
sequence leaves the wrapper stuck and executes no body. -/
theorem lock_stuck_after_error :
    lockExit { locked := true, inBody := true } BodyOutcome.err =
      { locked := true, inBody := false } ∧
    ∀ evs : List LockEv,
      lockRun { locked := true, inBody := false } evs =
        ({ locked := true, inBody := false }, 0) := by
  refine ⟨rfl, ?_⟩
  intro evs
  induction evs with
  | nil => rfl
  | cons e es ih =>
      cases e with
      | arrive => simpa [lockRun, lockStep, lockEnter] using ih
      | finish o => simpa [lockRun, lockStep, lockExit] using ih

/-- C3, counterexample: the claim says `get(index)` fails for every
non-positive index, but `__getitem__` only rejects `key < 0`: requesting
index 0 on an empty registry does not fail — it auto-vivifies and
returns a dummy record for key 0. -/
theorem getitem_zero_autovivifies :
    getItem workspacesNew (PyKey.int 0) =
      Except.ok ({ store := [(0, WEntry.dummyRec (mkDummy 0))], active := none },
                 WEntry.dummyRec (mkDummy 0)) := by
  rfl

/-- C3, amended: `get(index)` fails with the invalid-key error exactly
when the index is not an integer or is negative; for every index `≥ 0`
(including 0) it never fails — it returns the stored record, or stores
and returns a fresh `DummyWorkspace(index)` when the index is absent. -/
theorem getitem_invalid_key (w : Workspaces) (n : Int) (s : String) :
    getItem w (PyKey.nonInt s) = Except.error "Invalid key" ∧
    (n < 0 → getItem w (PyKey.int n) = Except.error "Invalid key") ∧
    (0 ≤ n →
      match storeLookup w.store n with
      | some e => getItem w (PyKey.int n) = Except.ok (w, e)
      | none =>
          getItem w (PyKey.int n) =
            Except.ok
              ({ w with store :=
                   storeInsert w.store n (WEntry.dummyRec (mkDummy n)) },
               WEntry.dummyRec (mkDummy n))) := by
  refine ⟨rfl, ?_, ?_⟩
  · intro h
    simp [getItem, h]
  · intro h
    have h' : ¬ n < 0 := not_lt.mpr h
    cases heq : storeLookup w.store n with
    | some e => simp [getItem, h', heq]
    | none => simp [getItem, h', heq]

/-- Witness for C3 (amended): lookup of the absent positive index 5 on
an empty registry succeeds by auto-vivification. -/
theorem getitem_invalid_key_witness :
    getItem workspacesNew (PyKey.int 5) =
      Except.ok
        ({ workspacesNew with store := storeInsert workspacesNew.store 5 (WEntry.dummyRec (mkDummy 5)) },
         WEntry.dummyRec (mkDummy 5)) :=
  (getitem_invalid_key workspacesNew 5 "x").2.2 (by decide)

/-- C7, counterexample: with the default configured workspace count 9,
the claim says `get(12)` yields a dummy rendered with the "nonexistent"
palette; but `EmptyTile.initialize` assigns `CONF.colors['empty']`
unconditionally, so the vivified dummy at index 12 carries the "empty"
palette. -/
theorem dummy_beyond_count_empty_palette :
    confWorkspaceCount < 12 ∧
    getItem workspacesNew (PyKey.int 12) =
      Except.ok
        ({ store := [(12, WEntry.dummyRec { index := 12, palette := Palette.empty })],
           active := none },
         WEntry.dummyRec { index := 12, palette := Palette.empty }) ∧
    Palette.empty ≠ Palette.nonexistent := by
  exact ⟨by decide, rfl, by decide⟩

/-- C7, amended: for every index with no record, the vivified dummy's
tile uses the "empty" palette, whether the index is at most the
configured workspace count or beyond it — `tile.py` has no
"nonexistent" variant and `config.py`'s palette table has no such
key. -/
theorem dummy_palette_always_empty (w : Workspaces) (n : Int) (h0 : 0 ≤ n)
    (habs : storeLookup w.store n = none) :
    getItem w (PyKey.int n) =
      Except.ok
        ({ w with store := storeInsert w.store n (WEntry.dummyRec (mkDummy n)) },
         WEntry.dummyRec (mkDummy n)) ∧
    (mkDummy n).palette = Palette.empty := by
  have h' : ¬ n < 0 := not_lt.mpr h0
  exact ⟨by simp [getItem, h', habs], rfl⟩

/-- Witness for C7 (amended), at index 7 (below the count of 9): the
dummy is rendered with the "empty" palette. -/
theorem dummy_palette_always_empty_witness :
    getItem workspacesNew (PyKey.int 7) =
      Except.ok
        ({ workspacesNew with store := storeInsert workspacesNew.store 7 (WEntry.dummyRec (mkDummy 7)) },
         WEntry.dummyRec (mkDummy 7)) ∧
    (mkDummy 7).palette = Palette.empty :=
  dummy_palette_always_empty workspacesNew 7 (by decide) (by rfl)

/-- Two leaves identical in all of `(id, x, y, width, height)` and
differing only in the focus flag. -/
def focusLeafA : Leaf :=
  { id := 1, x := 0, y := 0, width := 100, height := 100, focused := true }

def focusLeafB : Leaf :=
  { id := 1, x := 0, y := 0, width := 100, height := 100, focused := false }

/-- C4, counterexample: the claim says two leaf lists identical except
for which window carries the focused flag yield unequal fingerprints;
but `set_state` builds its tuples from `(id, x, y, width, height)`
only, so the two lists below — differing precisely in `focused` — have
equal fingerprints. -/
theorem fingerprint_ignores_focus :
    focusLeafA ≠ focusLeafB ∧
    focusLeafA.focused ≠ focusLeafB.focused ∧
    focusLeafA.id = focusLeafB.id ∧ focusLeafA.x = focusLeafB.x ∧
    focusLeafA.y = focusLeafB.y ∧ focusLeafA.width = focusLeafB.width ∧
    focusLeafA.height = focusLeafB.height ∧
    fingerprintOf [focusLeafA] = fingerprintOf [focusLeafB] := by
  decide

/-- C4, amended: the fingerprint is sensitive to the five recorded
components only — two leaf lists whose windows at some common position
differ in at least one of `(id, x, y, width, height)` have unequal
fingerprints (differences confined to the focus flag do not register,
as the counterexample shows). -/
theorem fingerprint_sensitivity (l1 l2 : List Leaf) (i : Nat)
    (h1 : i < l1.length) (h2 : i < l2.length)
    (hd : (l1.get ⟨i, h1⟩).id ≠ (l2.get ⟨i, h2⟩).id ∨
          (l1.get ⟨i, h1⟩).x ≠ (l2.get ⟨i, h2⟩).x ∨
          (l1.get ⟨i, h1⟩).y ≠ (l2.get ⟨i, h2⟩).y ∨
          (l1.get ⟨i, h1⟩).width ≠ (l2.get ⟨i, h2⟩).width ∨
          (l1.get ⟨i, h1⟩).height ≠ (l2.get ⟨i, h2⟩).height) :
    fingerprintOf l1 ≠ fingerprintOf l2 := by
  intro heq
  have hget : (fingerprintOf l1)[i]? = (fingerprintOf l2)[i]? := by rw [heq]
  rw [fingerprintOf, fingerprintOf, List.getElem?_map, List.getElem?_map,
      List.getElem?_eq_getElem h1, List.getElem?_eq_getElem h2] at hget
  simp only [Option.map_some', Option.some.injEq, Prod.mk.injEq] at hget
  obtain ⟨hid, hx, hy, hw, hh⟩ := hget
  simp only [List.get_eq_getElem] at hd
  rcases hd with h | h | h | h | h
  · exact h hid
  · exact h hx
  · exact h hy
  · exact h hw
  · exact h hh

lemma setColors_surfaceGen (tl : TileState) (tconf : TileConf)
    (s : List FpEntry) (a : Option Int) (i : Int) (now : ℚ) :
    (setColors tl tconf s a i now).1.surfaceGen = tl.surfaceGen := by
  unfold setColors; dsimp only
  split
  · split <;> split <;> rfl
  · split <;> rfl

lemma setScreenshot_surfaceGen (tl : TileState) (ws : WorkspaceRec) (now : ℚ) :
    (setScreenshot tl ws now).1.surfaceGen = tl.surfaceGen := by
  unfold setScreenshot
  rcases ws.lastScreenshot with _ | wt
  · rfl
  · rcases tl.lastScreenshot with _ | t
    · rfl
    · dsimp only; split <;> rfl

/-- C8: render-cache stability.  If a `CapturedTile.update` call
detects neither a colour-categorization change (`set_colors` returns
`False`) nor a capture timestamp newer than the cache's last-applied
one (`set_screenshot` returns `False`), `set_surface` is not called and
the cached surface pair is the one from before the call; conversely the
surface pair is regenerated only when at least one of the two checks
reports a change. -/
theorem render_cache_stability (tl : TileState) (tconf : TileConf)
    (ws : WorkspaceRec) (wsActive : Option Int) (now : ℚ) :
    ((setColors tl tconf ws.state wsActive ws.index now).2 = false ∧
        (setScreenshot (setColors tl tconf ws.state wsActive ws.index now).1
          ws now).2 = false →
      (tileUpdate tl tconf ws wsActive now).surfaceGen = tl.surfaceGen) ∧
    ((tileUpdate tl tconf ws wsActive now).surfaceGen ≠ tl.surfaceGen →
      (setColors tl tconf ws.state wsActive ws.index now).2 = true ∨
      (setScreenshot (setColors tl tconf ws.state wsActive ws.index now).1
        ws now).2 = true) := by
  rcases h1 : setColors tl tconf ws.state wsActive ws.index now with ⟨tl1, cc⟩
  rcases h2 : setScreenshot tl1 ws now with ⟨tl2, sc⟩
  have hc : tl1.surfaceGen = tl.surfaceGen := by
    have h := setColors_surfaceGen tl tconf ws.state wsActive ws.index now
    rw [h1] at h; exact h
  have hs2 : tl2.surfaceGen = tl1.surfaceGen := by
    have h := setScreenshot_surfaceGen tl1 ws now
    rw [h2] at h; exact h
  unfold tileUpdate
  rw [h1]
  dsimp only
  rw [h2]
  dsimp only
  cases cc <;> cases sc <;> simp [hc, hs2]

/-- Witness for C8: a concrete tile whose colour categorization and
applied capture timestamp are both current — `update` leaves the cached
surface pair (generation 5) untouched. -/
theorem render_cache_stability_witness :
    (tileUpdate
        { color := some ⟨1, 2⟩, screenshot := none, lastState := none,
          lastScreenshot := some 2, lastAny := none, surfaceGen := 5 }
        { activeColors := ⟨1, 2⟩, inactiveColors := ⟨3, 4⟩ }
        { index := 1, state := [(1, 0, 0, 10, 10)],
          screenshot := some ⟨1, 1, [0]⟩, lastState := some 1,
          lastScreenshot := some 1, lastAny := some 1,
          tile := TileKind.captured }
        (some 1) 3).surfaceGen =
      ({ color := some ⟨1, 2⟩, screenshot := none, lastState := none,
         lastScreenshot := some 2, lastAny := none,
         surfaceGen := 5 } : TileState).surfaceGen :=
  (render_cache_stability _ _ _ _ _).1 (by constructor <;> rfl)

lemma wsUpdate_accepted_tile (w : WorkspaceRec) (conf : Conf)
    (leaves : List Leaf) (active aar : Option Int) (buf : Screenshot) (now : ℚ)
    (h : (wsUpdate w conf leaves active aar buf now).captureAccepted = true) :
    (wsUpdate w conf leaves active aar buf now).record.tile =
      TileKind.captured := by
  revert h
  unfold wsUpdate
  rcases hss : setState w leaves now with ⟨w1, sc⟩
  dsimp only
  split
  · intro h; simp at h
  · split
    · rcases hcap : capture w1 aar buf now with ⟨w2, acc⟩
      have hw2 : w2.tile = w1.tile := by
        have h := capture_tile w1 aar buf now; rw [hcap] at h; exact h
      cases hwt : w1.tile <;> dsimp only
      · cases acc
        · intro h; simp at h
        · intro _; rfl
      · intro _; exact hw2.trans hwt
    · intro h; simp at h

/-- C9: one-way lifecycle.  A record whose tile is still the unknown
placeholder transitions to the captured state on its first accepted
capture, and a record that has ever accepted a screenshot stays in the
captured state across every sequence of further update passes — it
never reverts to the unknown/placeholder state. -/
theorem lifecycle_one_way (w w' : WorkspaceRec) (p : PassInput)
    (ps : List PassInput)
    (h1 : w.tile = TileKind.unknown)
    (h2 : (wsUpdate w p.conf p.leaves p.active p.activeAtResult p.buf
        p.now).captureAccepted = true)
    (h3 : w'.tile = TileKind.captured) :
    (wsUpdate w p.conf p.leaves p.active p.activeAtResult p.buf
        p.now).record.tile = TileKind.captured ∧
    (runPasses w' ps).tile = TileKind.captured := by
  refine ⟨wsUpdate_accepted_tile _ _ _ _ _ _ _ h2, ?_⟩
  induction ps generalizing w' with
  | nil => exact h3
  | cons q qs ih => exact ih (runPass w' q) (runPass_captured w' q h3)

/-- A concrete pass environment: the workspace is active, stays active
through capture completion, and shows one window. -/
def pInput1 : PassInput :=
  { conf := { minUpdateIntervalSec := 1, forcedUpdateIntervalSec := 5 },
    leaves := [{ id := 1, x := 0, y := 0, width := 10, height := 10,
                 focused := true }],
    active := some 1, activeAtResult := some 1,
    buf := ⟨1, 1, [0]⟩, now := 1 }

/-- A concrete already-captured record. -/
def wCap : WorkspaceRec :=
  { index := 2, state := [], screenshot := some ⟨1, 1, [0]⟩,
    lastState := none, lastScreenshot := some 0, lastAny := some 0,
    tile := TileKind.captured }

/-- Witness for C9: a fresh record at index 1 accepts its first capture
and becomes captured; the captured record `wCap` stays captured through
a further pass. -/
theorem lifecycle_one_way_witness :
    (wsUpdate (freshWorkspace 1) pInput1.conf pInput1.leaves pInput1.active
        pInput1.activeAtResult pInput1.buf pInput1.now).record.tile =
      TileKind.captured ∧
    (runPasses wCap [pInput1]).tile = TileKind.captured :=
  lifecycle_one_way (freshWorkspace 1) wCap pInput1 [pInput1] rfl (by decide)
    rfl

lemma screenshotOlderThan_iff (w : WorkspaceRec) (now what : ℚ)
    (hinv : w.screenshot = none ∨ w.lastScreenshot ≠ none) :
    screenshotOlderThan w now what = true ↔
      (w.screenshot = none ∨
       ∃ t, w.lastScreenshot = some t ∧ now - t > what) := by
  unfold screenshotOlderThan
  rcases hs : w.screenshot with _ | s
  · simp
  · rcases hl : w.lastScreenshot with _ | t
    · rcases hinv with h | h
      · rw [hs] at h; exact absurd h (by simp)
      · exact absurd hl h
    · simp

lemma wsUpdate_invoked (w : WorkspaceRec) (conf : Conf) (leaves : List Leaf)
    (active aar : Option Int) (buf : Screenshot) (now : ℚ) :
    (wsUpdate w conf leaves active aar buf now).captureInvoked = true ↔
      ((match w.lastState with
          | some t => decide (now - t < conf.minUpdateIntervalSec)
          | none => false) = false ∧
        (active = some (setState w leaves now).1.index ∧
          ((setState w leaves now).2 = true ∨
           screenshotOlderThan (setState w leaves now).1 now
             conf.forcedUpdateIntervalSec = true))) := by
  unfold wsUpdate
  rcases hss : setState w leaves now with ⟨w1, sc⟩
  dsimp only
  split
  · rename_i hd
    simp [hd]
  · rename_i hd
    have hd' : (match w.lastState with
        | some t => decide (now - t < conf.minUpdateIntervalSec)
        | none => false) = false := by
      revert hd
      cases (match w.lastState with
        | some t => decide (now - t < conf.minUpdateIntervalSec)
        | none => false) <;> simp
    split
    · rename_i hcond
      rcases hcap : capture w1 aar buf now with ⟨w2, acc⟩
      cases hwt : w1.tile <;> dsimp only
      · cases acc <;> simp [hd', hcond]
      · simp [hd', hcond]
    · rename_i hcond
      simp [hd', hcond]

/-- C5: capture eligibility.  On an executing per-record update pass
(one not skipped by the debounce of workspace.py lines 149-153, which
is the hypothesis `hdeb`), `Workspace.update` invokes `capture` if and
only if the record's index equals the registry's active index and at
least one of (a) the geometry fingerprint changed this pass, (b) the
screenshot is older than `forced_update_interval_sec`, (c) no
screenshot has been captured yet, holds.  `hinv` is the program
invariant that a present screenshot always has a capture timestamp
(the two fields are only ever written together). -/
theorem capture_eligibility (w : WorkspaceRec) (conf : Conf)
    (leaves : List Leaf) (active activeAtResult : Option Int)
    (buf : Screenshot) (now : ℚ)
    (hdeb : ∀ t, w.lastState = some t → conf.minUpdateIntervalSec ≤ now - t)
    (hinv : w.screenshot = none ∨ w.lastScreenshot ≠ none) :
    (wsUpdate w conf leaves active activeAtResult buf
        now).captureInvoked = true ↔
      (active = some w.index ∧
        (w.state ≠ fingerprintOf leaves ∨
         (∃ t, w.lastScreenshot = some t ∧
            now - t > conf.forcedUpdateIntervalSec) ∨
         w.screenshot = none)) := by
  have hnd : (match w.lastState with
      | some t => decide (now - t < conf.minUpdateIntervalSec)
      | none => false) = false := by
    rcases hls : w.lastState with _ | t
    · rfl
    · exact decide_eq_false (not_lt.mpr (hdeb t hls))
  have he : screenshotOlderThan (setState w leaves now).1 now
      conf.forcedUpdateIntervalSec =
      screenshotOlderThan w now conf.forcedUpdateIntervalSec := by
    unfold screenshotOlderThan
    rw [setState_screenshot, setState_lastScreenshot]
  rw [wsUpdate_invoked, hnd, setState_index, he,
      screenshotOlderThan_iff w now conf.forcedUpdateIntervalSec hinv,
      setState_changed]
  constructor
  · rintro ⟨-, ha, hb⟩
    refine ⟨ha, ?_⟩
    rcases hb with h | h | h
    · exact Or.inl h
    · exact Or.inr (Or.inr h)
    · exact Or.inr (Or.inl h)
  · rintro ⟨ha, hb⟩
    refine ⟨rfl, ha, ?_⟩
    rcases hb with h | h | h
    · exact Or.inl h
    · exact Or.inr (Or.inr h)
    · exact Or.inr (Or.inl h)

/-- A captured record whose fingerprint will be unchanged and whose
screenshot is 11 seconds old at `now = 11`. -/
def wAged : WorkspaceRec :=
  { index := 1, state := [(1, 0, 0, 10, 10)],
    screenshot := some ⟨1, 1, [0]⟩, lastState := some 0,
    lastScreenshot := some 0, lastAny := some 0,
    tile := TileKind.captured }

/-- Witness for C5: the active captured record `wAged`, with unchanged
fingerprint and screenshot age 11 s against a forced interval of 10 s,
has a capture invoked by the pass. -/
theorem capture_eligibility_witness :
    (wsUpdate wAged { minUpdateIntervalSec := 1/2, forcedUpdateIntervalSec := 10 }
        [{ id := 1, x := 0, y := 0, width := 10, height := 10, focused := false }]
        (some 1) (some 1) ⟨1, 1, [2]⟩ 11).captureInvoked = true :=
  (capture_eligibility wAged
      { minUpdateIntervalSec := 1/2, forcedUpdateIntervalSec := 10 }
      [{ id := 1, x := 0, y := 0, width := 10, height := 10, focused := false }]
      (some 1) (some 1) ⟨1, 1, [2]⟩ 11
      (by
        intro t ht
        rw [show wAged.lastState = some 0 from rfl, Option.some.injEq] at ht
        rw [← ht]
        norm_num)
      (Or.inr (by simp [wAged]))).mpr
    ⟨rfl, Or.inr (Or.inl ⟨0, rfl, by norm_num⟩)⟩

/-- Witness for C4 (amended): two singleton lists whose only windows
differ in width have unequal fingerprints. -/
theorem fingerprint_sensitivity_witness :
    fingerprintOf [{ id := 1, x := 0, y := 0, width := 100, height := 100,
                     focused := false }] ≠
      fingerprintOf [{ id := 1, x := 0, y := 0, width := 200, height := 100,
                       focused := false }] :=
  fingerprint_sensitivity _ _ 0 (by decide) (by decide) (by decide)

end I3expo
